import Mathlib

/-!
Verification of the signaling/session-coordination server of the
transferlvania repository.  Each server-side TypeScript function that the
claims mention is embedded as an executable Lean definition, and the claims
are settled as theorems about those definitions.

Time is modelled in milliseconds as `Nat` (JavaScript `Date.now()`), keyed
in-memory maps (`Map<string, T>`) as association lists `List (String × α)`,
and loosely-typed JavaScript event fields by small inductive types that
record absence, non-string values and truthiness.
-/

namespace Transferlvania

/-! ## JavaScript-value helpers -/

/-- A loosely typed JavaScript field that the handlers test with
`!x || typeof x !== 'string'`.  `notString b` records a non-string value
together with its truthiness `b`; `strVal ""` is falsy in JavaScript. -/
inductive JSField where
  | missing
  | notString (truthy : Bool)
  | strVal (s : String)
deriving DecidableEq, Repr

/-- JavaScript truthiness of a `JSField` (empty strings are falsy). -/
def JSField.truthy : JSField → Bool
  | .missing => false
  | .notString b => b
  | .strVal s => s ≠ ""

/-- `x` passes `!x || typeof x !== 'string'` (i.e. is a truthy string). -/
def JSField.isTruthyString : JSField → Bool
  | .strVal s => s ≠ ""
  | _ => false

/-- `typeof x === 'string'`. -/
def JSField.isString : JSField → Bool
  | .strVal _ => true
  | _ => false

/-- The string value of a field known to be a string (`""` otherwise). -/
def JSField.str : JSField → String
  | .strVal s => s
  | _ => ""

/-- A loosely typed numeric JavaScript field (`0` is falsy). -/
inductive JSNumField where
  | missing
  | notNum (truthy : Bool)
  | numVal (n : Int)
deriving DecidableEq, Repr

/-- JavaScript truthiness of a `JSNumField`. -/
def JSNumField.truthy : JSNumField → Bool
  | .missing => false
  | .notNum b => b
  | .numVal n => n ≠ 0

/-- JavaScript truthiness of an optional string (used for
`if (session.passwordHash)`: `null` and `""` are falsy). -/
def strOptTruthy : Option String → Bool
  | none => false
  | some s => s ≠ ""

/-- Association-list lookup, modelling `Map.get`. -/
def lookupKey {α : Type} : List (String × α) → String → Option α
  | [], _ => none
  | (k, v) :: rest, key => if k = key then some v else lookupKey rest key

/-- Association-list overwrite, modelling `Map.set`. -/
def setKey {α : Type} (m : List (String × α)) (key : String) (v : α) :
    List (String × α) :=
  (key, v) :: m.filter (fun p => p.1 ≠ key)

/-- Association-list removal, modelling `Map.delete`. -/
def delKey {α : Type} (m : List (String × α)) (key : String) :
    List (String × α) :=
  m.filter (fun p => p.1 ≠ key)

/-- `String.prototype.split(c)` on the character list of a string. -/
def splitOnChar (c : Char) : List Char → List (List Char)
  | [] => [[]]
  | x :: xs =>
    let rest := splitOnChar c xs
    if x = c then [] :: rest
    else
      match rest with
      | [] => [[x]]
      | seg :: segs => (x :: seg) :: segs

theorem splitOnChar_ne_nil (c : Char) (l : List Char) : splitOnChar c l ≠ [] := by
  induction l with
  | nil => simp [splitOnChar]
  | cons x xs ih =>
    simp only [splitOnChar]
    split
    · simp
    · cases h : splitOnChar c xs with
      | nil => simp
      | cons seg segs => simp

/-- The number of split segments is one more than the number of separators. -/
theorem splitOnChar_length (c : Char) (l : List Char) :
    (splitOnChar c l).length = l.count c + 1 := by
  induction l with
  | nil => simp [splitOnChar]
  | cons x xs ih =>
    simp only [splitOnChar]
    by_cases hx : x = c
    · simp [hx, ih, List.count_cons]
    · cases h : splitOnChar c xs with
      | nil => exact absurd h (splitOnChar_ne_nil c xs)
      | cons seg segs =>
        simp only [if_neg hx, List.length_cons]
        rw [h] at ih
        simp only [List.length_cons] at ih
        simp [List.count_cons, hx, ih]

/-! ## `src/server/src/middleware/rateLimiter.ts` -/

/-- One entry of `RateLimiter.requests` (`{count, resetTime}`). -/
structure RateLimitEntry where
  count : Nat
  resetTime : Nat
deriving DecidableEq, Repr

/-- `RateLimiter.check` for a single identifier.  The state passed in is the
map entry for that identifier (`none` when absent); the call returns the
`allowed` flag and the entry stored after the call. -/
def rateLimiterCheck (windowMs maxRequests now : Nat)
    (entry : Option RateLimitEntry) : Bool × RateLimitEntry :=
  match entry with
  | none => (true, ⟨1, now + windowMs⟩)
  | some e =>
    if now > e.resetTime then (true, ⟨1, now + windowMs⟩)
    else if e.count ≥ maxRequests then (false, e)
    else (true, ⟨e.count + 1, e.resetTime⟩)

/-- Window and cap of `socketConnectionLimiter`: 10 connections / 60 s / IP. -/
def connectionLimiterParams : Nat × Nat := (60000, 10)

/-- Window and cap of `uploadInitLimiter`: 5 uploads / 300 s / socket. -/
def uploadInitLimiterParams : Nat × Nat := (300000, 5)

/-- Window and cap of `joinRoomLimiter`: 20 joins / 60 s / socket. -/
def joinRoomLimiterParams : Nat × Nat := (60000, 20)

/-- Run a sequence of `check` calls (call times given in order) for one
identifier and collect the timestamps of the accepted calls. -/
def runLimiter (windowMs maxRequests : Nat) :
    Option RateLimitEntry → List Nat → List Nat
  | _, [] => []
  | st, t :: ts =>
    match rateLimiterCheck windowMs maxRequests t st with
    | (true, st') => t :: runLimiter windowMs maxRequests (some st') ts
    | (false, st') => runLimiter windowMs maxRequests (some st') ts

/-- Helper bound: while every call time stays at or before the bucket's
reset time, the bucket is never replaced and accepts at most
`maxRequests - c` further calls. -/
theorem runLimiter_bucket_bound (w m : Nat) (R : Nat) (c : Nat)
    (ts : List Nat) (hts : ∀ t ∈ ts, t ≤ R) :
    (runLimiter w m (some ⟨c, R⟩) ts).length ≤ m - c := by
  induction ts generalizing c with
  | nil => simp [runLimiter]
  | cons t ts ih =>
    have ht : t ≤ R := hts t (List.mem_cons_self t ts)
    have hts' : ∀ t' ∈ ts, t' ≤ R := fun t' h => hts t' (List.mem_cons_of_mem t h)
    have hnot : ¬ t > R := not_lt.mpr ht
    by_cases hc : c ≥ m
    · have hstep : rateLimiterCheck w m t (some ⟨c, R⟩) = (false, ⟨c, R⟩) := by
        simp [rateLimiterCheck, hnot, hc]
      simp only [runLimiter, hstep]
      have := ih c hts'
      omega
    · have hstep : rateLimiterCheck w m t (some ⟨c, R⟩) = (true, ⟨c + 1, R⟩) := by
        simp [rateLimiterCheck, hnot, hc]
      simp only [runLimiter, hstep, List.length_cons]
      have := ih (c + 1) hts'
      omega

/-- All calls confined to one window length after the first call share a
single bucket, so at most `m` of them are accepted. -/
theorem runLimiter_window_bound (w m : Nat) (hm : 1 ≤ m) (t0 : Nat)
    (ts : List Nat) (hts : ∀ t ∈ ts, t ≤ t0 + w) :
    (runLimiter w m none (t0 :: ts)).length ≤ m := by
  have hstep : rateLimiterCheck w m t0 none = (true, ⟨1, t0 + w⟩) := by
    simp [rateLimiterCheck]
  simp only [runLimiter, hstep, List.length_cons]
  have := runLimiter_bucket_bound w m (t0 + w) 1 ts hts
  omega

/-! ## `sessionLimiter` (`src/server/src/middleware/ddosProtection.ts`,
class `SessionLimiter`) -/

/-- One entry of `SessionLimiter.ipSessions`. -/
structure SessionTracker where
  count : Nat
  firstSessionTime : Nat
  lastSessionTime : Nat
deriving DecidableEq, Repr

/-- Limits of the `SessionLimiter`: `MAX_SESSIONS_PER_IP = 10`,
`TIME_WINDOW_MS = 3600000`, `MAX_SESSIONS_PER_HOUR = 20`. -/
def MAX_SESSIONS_PER_IP : Nat := 10
def SL_TIME_WINDOW_MS : Nat := 60 * 60 * 1000
def MAX_SESSIONS_PER_HOUR : Nat := 20

/-- Result of `SessionLimiter.check` (the `reason` is `none` on allow). -/
structure SLCheckResult where
  allowed : Bool
  reason : Option String
deriving DecidableEq, Repr

/-- `SessionLimiter.check` for a single IP: the state passed in is the
tracker stored for that IP (`none` when absent). -/
def sessionLimiterCheck (now : Nat) (tr : Option SessionTracker) :
    SLCheckResult × Option SessionTracker :=
  match tr with
  | none => (⟨true, none⟩, some ⟨1, now, now⟩)
  | some t =>
    if now - t.firstSessionTime > SL_TIME_WINDOW_MS then
      (⟨true, none⟩, some ⟨1, now, now⟩)
    else if t.count ≥ MAX_SESSIONS_PER_HOUR then
      (⟨false, some "Maximum 20 sessions per hour exceeded."⟩, some t)
    else if t.count ≥ MAX_SESSIONS_PER_IP then
      (⟨false, some "Maximum 10 concurrent sessions allowed per IP."⟩, some t)
    else
      (⟨true, none⟩, some ⟨t.count + 1, t.firstSessionTime, now⟩)

/-- `SessionLimiter.decrementSession` for a single IP: decrements only a
positive count and deletes the entry when the count reaches zero. -/
def decrementSession (tr : Option SessionTracker) : Option SessionTracker :=
  match tr with
  | none => none
  | some t =>
    if t.count > 0 then
      if t.count - 1 = 0 then none
      else some ⟨t.count - 1, t.firstSessionTime, t.lastSessionTime⟩
    else some t

/-- An operation on one IP's session tracker: a `check` at a given time, or
a `decrementSession`. -/
inductive SLOp where
  | chk (now : Nat)
  | dec
deriving DecidableEq, Repr

/-- Run a sequence of operations, returning the final tracker and the
number of `check` calls that were allowed (sessions admitted). -/
def runSessionOps : Option SessionTracker → List SLOp → Option SessionTracker × Nat
  | tr, [] => (tr, 0)
  | tr, SLOp.chk now :: ops =>
    let r := sessionLimiterCheck now tr
    let rest := runSessionOps r.2 ops
    (rest.1, (if r.1.allowed then 1 else 0) + rest.2)
  | tr, SLOp.dec :: ops => runSessionOps (decrementSession tr) ops

/-- The count stored in a tracker (`0` when absent). -/
def trackerCount : Option SessionTracker → Nat
  | none => 0
  | some t => t.count

theorem sessionLimiterCheck_count_le (now : Nat) (tr : Option SessionTracker)
    (h : trackerCount tr ≤ 10) :
    trackerCount (sessionLimiterCheck now tr).2 ≤ 10 := by
  match tr with
  | none => simp [sessionLimiterCheck, trackerCount]
  | some t =>
    simp only [sessionLimiterCheck]
    split
    · simp [trackerCount]
    · split
      · simpa [trackerCount] using h
      · split
        · simpa [trackerCount] using h
        · rename_i h1 h2 h3
          simp only [trackerCount] at h ⊢
          simp only [MAX_SESSIONS_PER_IP, ge_iff_le, not_le] at h3
          omega

theorem decrementSession_count_le (tr : Option SessionTracker)
    (h : trackerCount tr ≤ 10) :
    trackerCount (decrementSession tr) ≤ 10 := by
  match tr with
  | none => simpa [decrementSession] using h
  | some t =>
    simp only [decrementSession]
    split
    · split
      · simp [trackerCount]
      · simp only [trackerCount] at h ⊢; omega
    · simpa [trackerCount] using h

/-- On every reachable tracker state the stored count never exceeds 10. -/
theorem runSessionOps_count_le (ops : List SLOp) (tr : Option SessionTracker)
    (h : trackerCount tr ≤ 10) :
    trackerCount (runSessionOps tr ops).1 ≤ 10 := by
  induction ops generalizing tr with
  | nil => simpa [runSessionOps] using h
  | cons op ops ih =>
    cases op with
    | chk now =>
      simp only [runSessionOps]
      exact ih _ (sessionLimiterCheck_count_le now tr h)
    | dec =>
      simp only [runSessionOps]
      exact ih _ (decrementSession_count_le tr h)

/-! ## `SessionManager` (the one-time-code variant of
`utils/sessionManager.ts` in the source tree) -/

/-- One entry of `SessionManager.activeSessions` (code-minting variant). -/
structure ActiveSession where
  senderSocketId : String
  createdAt : Nat
  oneTimeCode : String
  codeUsed : Bool
deriving DecidableEq, Repr

/-- The code alphabet `'ABCDEFGHJKLMNPQRSTUVWXYZ23456789'`. -/
def codeChars : List Char :=
  ['A', 'B', 'C', 'D', 'E', 'F', 'G', 'H', 'J', 'K', 'L', 'M', 'N', 'P',
   'Q', 'R', 'S', 'T', 'U', 'V', 'W', 'X', 'Y', 'Z', '2', '3', '4', '5',
   '6', '7', '8', '9']

/-- `generateOneTimeCode`: six characters `chars.charAt(b⌊random·32⌋)`; each
call of `Math.random` is modelled by one entry of `rand`. -/
def generateOneTimeCode (rand : Fin 6 → Fin 32) : String :=
  String.mk ((List.finRange 6).map (fun i => codeChars.getD (rand i).val 'A'))

/-- `String.prototype.toUpperCase()`. -/
def jsToUpper (s : String) : String := String.mk (s.data.map Char.toUpper)

/-- The in-memory registry: session id → entry. -/
abbrev Registry := List (String × ActiveSession)

/-- `SessionManager.register` (code-minting variant): mints a code, stores
the entry and returns the code. -/
def smRegister (reg : Registry) (fileId senderSocketId : String) (now : Nat)
    (rand : Fin 6 → Fin 32) : String × Registry :=
  let code := generateOneTimeCode rand
  (code, setKey reg fileId ⟨senderSocketId, now, code, false⟩)

/-- `SessionManager.isSender`. -/
def smIsSender (reg : Registry) (fileId socketId : String) : Bool :=
  match lookupKey reg fileId with
  | some s => s.senderSocketId = socketId
  | none => false

/-- `SessionManager.remove`. -/
def smRemove (reg : Registry) (fileId : String) : Registry := delKey reg fileId

/-- `SessionManager.validateCode`: absent session, used code and mismatched
code fail with distinct reasons; a match flips `codeUsed` to true. -/
def smValidateCode (reg : Registry) (fileId code : String) :
    (Bool × Option String) × Registry :=
  match lookupKey reg fileId with
  | none => ((false, some "Session not found"), reg)
  | some s =>
    if s.codeUsed then ((false, some "Code already used"), reg)
    else if s.oneTimeCode ≠ jsToUpper code then ((false, some "Invalid code"), reg)
    else ((true, none), setKey reg fileId ⟨s.senderSocketId, s.createdAt, s.oneTimeCode, true⟩)

/-- Run a sequence of `validateCode` calls, collecting `(fileId, valid)`. -/
def runValidates : Registry → List (String × String) → List (String × Bool) × Registry
  | reg, [] => ([], reg)
  | reg, (fid, code) :: ops =>
    let r := smValidateCode reg fid code
    let rest := runValidates r.2 ops
    ((fid, r.1.1) :: rest.1, rest.2)

/-- Whether validation for `fileId` can never again succeed: the entry is
absent or its code is already used. -/
def regLocked (reg : Registry) (fileId : String) : Prop :=
  ∀ s, lookupKey reg fileId = some s → s.codeUsed = true

theorem lookupKey_setKey_self {α : Type} (m : List (String × α)) (k : String) (v : α) :
    lookupKey (setKey m k v) k = some v := by
  simp [setKey, lookupKey]

theorem lookupKey_filter_ne {α : Type} (m : List (String × α)) (k k' : String)
    (h : k ≠ k') :
    lookupKey (m.filter (fun p => p.1 ≠ k)) k' = lookupKey m k' := by
  induction m with
  | nil => rfl
  | cons p rest ih =>
    obtain ⟨k1, v1⟩ := p
    simp only [List.filter_cons]
    by_cases hk1 : k1 = k
    · rw [if_neg (by simp [hk1])]
      rw [ih]
      simp only [lookupKey]
      rw [if_neg (fun hh => h (hk1 ▸ hh))]
    · rw [if_pos (by simp [hk1])]
      simp only [lookupKey]
      by_cases hk1' : k1 = k'
      · simp [hk1']
      · simp only [if_neg hk1']
        exact ih

theorem lookupKey_setKey_ne {α : Type} (m : List (String × α)) (k k' : String) (v : α)
    (h : k ≠ k') : lookupKey (setKey m k v) k' = lookupKey m k' := by
  simp only [setKey, lookupKey, if_neg h]
  exact lookupKey_filter_ne m k k' h

theorem smValidateCode_locked (reg : Registry) (fileId : String)
    (h : regLocked reg fileId) (fid code : String) :
    regLocked (smValidateCode reg fid code).2 fileId := by
  intro s' hs'
  cases hl : lookupKey reg fid with
  | none =>
    simp only [smValidateCode, hl] at hs'
    exact h s' hs'
  | some s =>
    by_cases hu : s.codeUsed = true
    · simp only [smValidateCode, hl, hu, if_true] at hs'
      exact h s' hs'
    · by_cases hc : s.oneTimeCode = jsToUpper code
      · simp only [smValidateCode, hl, hu, hc, ne_eq, not_true_eq_false,
          if_false, Bool.false_eq_true] at hs'
        by_cases hf : fid = fileId
        · subst hf
          rw [lookupKey_setKey_self] at hs'
          cases hs'
          rfl
        · rw [lookupKey_setKey_ne _ _ _ _ hf] at hs'
          exact h s' hs'
      · simp only [smValidateCode, hl, hu, Bool.false_eq_true, if_false] at hs'
        rw [if_pos hc] at hs'
        exact h s' hs'

/-- The decidable success predicate used to count validations for one id. -/
def isSuccessFor (fileId : String) (r : String × Bool) : Bool :=
  decide (r.1 = fileId) && r.2

/-- A locked registry never produces a successful validation. -/
theorem smValidateCode_locked_fails (reg : Registry) (fid code : String)
    (h : regLocked reg fid) : (smValidateCode reg fid code).1.1 = false := by
  cases hl : lookupKey reg fid with
  | none => simp [smValidateCode, hl]
  | some s => simp [smValidateCode, hl, h s hl]

/-- Once locked for `fileId`, no later `validateCode` call succeeds. -/
theorem runValidates_locked_no_success (ops : List (String × String))
    (reg : Registry) (fileId : String) (h : regLocked reg fileId) :
    ((runValidates reg ops).1.filter (isSuccessFor fileId)).length = 0 := by
  induction ops generalizing reg with
  | nil => simp [runValidates]
  | cons op ops ih =>
    obtain ⟨fid, code⟩ := op
    have hnext := smValidateCode_locked reg fileId h fid code
    simp only [runValidates, List.filter_cons]
    have hcond : isSuccessFor fileId (fid, (smValidateCode reg fid code).1.1) = false := by
      by_cases hf : fid = fileId
      · subst hf
        simp [isSuccessFor, smValidateCode_locked_fails reg fid code h]
      · simp [isSuccessFor, hf]
    rw [if_neg (by simp [hcond])]
    exact ih _ hnext

/-- Over any sequence of `validateCode` calls, at most one succeeds per id. -/
theorem runValidates_at_most_once (ops : List (String × String))
    (reg : Registry) (fileId : String) :
    ((runValidates reg ops).1.filter (isSuccessFor fileId)).length ≤ 1 := by
  induction ops generalizing reg with
  | nil => simp [runValidates]
  | cons op ops ih =>
    obtain ⟨fid, code⟩ := op
    simp only [runValidates, List.filter_cons]
    by_cases hcond : isSuccessFor fileId (fid, (smValidateCode reg fid code).1.1) = true
    · rw [if_pos hcond]
      simp only [isSuccessFor, Bool.and_eq_true, decide_eq_true_eq] at hcond
      obtain ⟨hf, hb⟩ := hcond
      subst hf
      have hlock : regLocked (smValidateCode reg fid code).2 fid := by
        intro s' hs'
        cases hl : lookupKey reg fid with
        | none => simp [smValidateCode, hl] at hb
        | some s =>
          by_cases hu : s.codeUsed = true
          · simp [smValidateCode, hl, hu] at hb
          · by_cases hc : s.oneTimeCode = jsToUpper code
            · simp only [smValidateCode, hl, hu, hc, ne_eq, not_true_eq_false,
                if_false, Bool.false_eq_true] at hs'
              rw [lookupKey_setKey_self] at hs'
              cases hs'
              rfl
            · simp [smValidateCode, hl, hu, hc] at hb
      have := runValidates_locked_no_success ops _ fid hlock
      simp only [List.length_cons]
      omega
    · rw [if_neg (by simpa using hcond)]
      exact ih _

/-! ## `src/server/src/utils/validation.ts` -/

/-- Whether a character list starts with the pattern list. -/
def startsWith : List Char → List Char → Bool
  | [], _ => true
  | _ :: _, [] => false
  | p :: ps, c :: cs => p = c && startsWith ps cs

/-- `String.prototype.includes` on character lists. -/
def containsSub (pat : List Char) : List Char → Bool
  | [] => startsWith pat []
  | c :: cs => startsWith pat (c :: cs) || containsSub pat cs

/-- Global replacement of the regex `/\.\./g` by the empty string
(left-to-right, non-overlapping, like `String.prototype.replace`). -/
def removeDotDot : List Char → List Char
  | '.' :: '.' :: rest => removeDotDot rest
  | c :: rest => c :: removeDotDot rest
  | [] => []

/-- A path separator (`/[\/\\]/`). -/
def isPathSep (c : Char) : Bool := c = '/' || c = '\\'

/-- A character matched by `/[<>:"|?*\x00-\x1f]/`. -/
def isBadNameChar (c : Char) : Bool :=
  c = '<' || c = '>' || c = ':' || c = '"' || c = '|' || c = '?' || c = '*' ||
    c.val ≤ 0x1f

/-- The sanitization pipeline of `validateFileName`. -/
def sanitizeFileName (name : String) : String :=
  String.mk ((((removeDotDot name.data).map
      (fun c => if isPathSep c then '_' else c)).map
      (fun c => if isBadNameChar c then '_' else c)).take 255)

/-- `validateFileName`: result `(valid, sanitized?, error?)`. -/
def validateFileName (fileName : JSField) :
    Bool × Option String × Option String :=
  match fileName with
  | .strVal s =>
    if s = "" then (false, none, some "Invalid file name")
    else
      let sanitized := sanitizeFileName s
      if sanitized = "" then
        (false, none, some "File name becomes empty after sanitization")
      else (true, some sanitized, none)
  | _ => (false, none, some "Invalid file name")

/-- `maxSize` default of `validateFileSize`: `100 * 1024 * 1024 * 1024`. -/
def MAX_FILE_SIZE : Int := 100 * 1024 * 1024 * 1024

/-- `validateFileSize`: result `(valid, error?)`. -/
def validateFileSize (fileSize : JSNumField) : Bool × Option String :=
  match fileSize with
  | .numVal n =>
    if n ≤ 0 then (false, some "File size must be a positive number")
    else if n > MAX_FILE_SIZE then
      (false, some "File size exceeds maximum limit (100GB)")
    else (true, none)
  | _ => (false, some "Invalid file size")

/-- `DANGEROUS_EXTENSIONS` from `validation.ts`. -/
def DANGEROUS_EXTENSIONS : List String :=
  ["exe", "dll", "bat", "cmd", "com", "scr", "pif", "vbs", "js", "jse",
   "wsf", "wsh", "msi", "msp", "hta", "cpl", "jar", "ps1", "psm1",
   "reg", "vb", "vbe", "ws", "application", "gadget", "msc", "lnk"]

/-- `SUSPICIOUS_MIME_TYPES` from `validation.ts`. -/
def SUSPICIOUS_MIME_TYPES : List String :=
  ["application/x-msdownload", "application/x-msdos-program",
   "application/x-executable", "application/x-bat", "application/x-sh",
   "text/x-script.python"]

/-- Result record of `validateFileType`. -/
structure FileTypeResult where
  valid : Bool
  sanitized : Option String
  error : Option String
  isDangerous : Bool
  warningMessage : Option String
deriving DecidableEq, Repr

/-- `validateFileType`: truncate to 100 characters, lowercase, and flag (but
do not reject) suspicious MIME substrings. -/
def validateFileType (fileType : JSField) : FileTypeResult :=
  match fileType with
  | .strVal s =>
    if s = "" then ⟨false, none, some "Invalid file type", false, none⟩
    else
      let sanitized := String.mk ((s.data.take 100).map Char.toLower)
      if SUSPICIOUS_MIME_TYPES.any (fun mime => containsSub mime.data sanitized.data) then
        ⟨true, some sanitized, none, true,
          some "This file type may contain executable code. Exercise extreme caution."⟩
      else ⟨true, some sanitized, none, false, none⟩
  | _ => ⟨false, none, some "Invalid file type", false, none⟩

/-- Result record of `checkDangerousFileExtension`. -/
structure ExtCheckResult where
  isDangerous : Bool
  warningMessage : Option String
  extension : Option String
deriving DecidableEq, Repr

/-- `checkDangerousFileExtension`: the last dot segment against the blocked
set, plus the double-extension rule on the second-to-last segment. -/
def checkDangerousFileExtension (fileName : String) : ExtCheckResult :=
  let parts := splitOnChar '.' (fileName.data.map Char.toLower)
  if parts.length < 2 then ⟨false, none, none⟩
  else
    let extension := String.mk (parts.getD (parts.length - 1) [])
    if DANGEROUS_EXTENSIONS.contains extension then
      ⟨true,
        some ("WARNING: ." ++ extension ++
          " files can execute code on your computer. Only download if you trust the sender."),
        some extension⟩
    else
      let secondLast := String.mk (parts.getD (parts.length - 2) [])
      if parts.length > 2 && DANGEROUS_EXTENSIONS.contains secondLast then
        ⟨true,
          some "WARNING: This file has a disguised executable extension. This is a common malware technique.",
          some secondLast⟩
      else ⟨false, none, none⟩

/-- A lowercase or uppercase hex digit. -/
def isHexChar (c : Char) : Bool :=
  c.isDigit || ('a' ≤ c && c ≤ 'f') || ('A' ≤ c && c ≤ 'F')

/-- The UUID regex
`/^[0-9a-f]{8}-[0-9a-f]{4}-[0-9a-f]{4}-[0-9a-f]{4}-[0-9a-f]{12}$/i`
as a test on the dash-separated segments. -/
def uuidFormatOk (s : String) : Bool :=
  match splitOnChar '-' s.data with
  | [a, b, c, d, e] =>
    a.length = 8 && b.length = 4 && c.length = 4 && d.length = 4 &&
      e.length = 12 && (a ++ b ++ c ++ d ++ e).all isHexChar
  | _ => false

/-- `validateUUID`: result `(valid, error?)`. -/
def validateUUID (id : JSField) : Bool × Option String :=
  match id with
  | .strVal s =>
    if s = "" then (false, some "Invalid ID")
    else if uuidFormatOk s then (true, none)
    else (false, some "Invalid ID format")
  | _ => (false, some "Invalid ID")

/-- `validateSocketId`: any non-empty string is valid. -/
def validateSocketId (socketId : JSField) : Bool × Option String :=
  match socketId with
  | .strVal s =>
    if s = "" then (false, some "Invalid socket ID") else (true, none)
  | _ => (false, some "Invalid socket ID")

/-! ## `src/server/src/utils/password.ts`

SHA-256 itself is the Node `crypto` primitive; it enters the model as an
abstract digest function `sha : String → String`. -/

/-- `hashPassword`: the unsalted SHA-256 hex digest of the password. -/
def hashPassword (sha : String → String) (password : String) : String :=
  sha password

/-- `verifyPassword`: hash the input and compare with the stored hash. -/
def verifyPassword (sha : String → String) (password hash : String) : Bool :=
  hashPassword sha password = hash

/-- `validatePassword`: optional, but when supplied must be a string of 4 to
128 characters.  Result `(valid, error?)`. -/
def validatePassword (password : JSField) : Bool × Option String :=
  if ¬ password.truthy then (true, none)
  else
    match password with
    | .strVal s =>
      if s.length < 4 then (false, some "Password must be at least 4 characters")
      else if s.length > 128 then (false, some "Password too long (max 128 characters)")
      else (true, none)
    | _ => (false, some "Password must be a string")

/-! ## `src/server/src/utils/encryption.ts` (`decrypt`)

AES-256-GCM decryption is the Node `crypto` primitive; it enters the model
as an abstract function `gcm : String → String → String → Option String`
taking the three hex fields (iv, auth tag, ciphertext) and returning the
plaintext, or `none` when authenticated decryption throws. -/

/-- `decrypt`: split on `:`; anything without exactly three fields, with an
empty field, or failing authenticated decryption is returned unchanged. -/
def decrypt (gcm : String → String → String → Option String) (text : String) :
    String :=
  match (splitOnChar ':' text.data).map String.mk with
  | [ivHex, authTagHex, encryptedText] =>
    if ivHex = "" ∨ authTagHex = "" ∨ encryptedText = "" then text
    else
      match gcm ivHex authTagHex encryptedText with
      | some plain => plain
      | none => text
  | _ => text

/-! ## Server state and the socket handlers
(`src/server/src/handlers/socketHandlers.ts`, `handlers/transferComplete.ts`,
`src/server/src/index.tsx`) -/

/-- One row of the `fileSession` table (string fields hold ciphertext). -/
structure FileSession where
  fileName : String
  fileSize : Int
  fileType : String
  passwordHash : Option String
  status : String
  createdAt : Nat
deriving DecidableEq, Repr

/-- The in-memory and persistent state the handlers touch: the repository
table, the session registry, Socket.IO room membership, the set of
connected sockets and the per-key limiter maps. -/
structure SrvState where
  db : List (String × FileSession)
  registry : Registry
  rooms : List (String × List String)
  connected : List String
  uploadLimiter : List (String × RateLimitEntry)
  joinLimiter : List (String × RateLimitEntry)
  sessionLim : List (String × SessionTracker)
deriving DecidableEq, Repr

/-- The rooms a socket has joined (`socket.rooms`, without the implicit
self room). -/
def roomsOf (st : SrvState) (socketId : String) : List String :=
  (lookupKey st.rooms socketId).getD []

/-- `socket.join(roomId)`. -/
def joinRoom (rooms : List (String × List String)) (socketId roomId : String) :
    List (String × List String) :=
  let cur := (lookupKey rooms socketId).getD []
  if roomId ∈ cur then rooms else setKey rooms socketId (roomId :: cur)

/-- The members of a room (sockets whose room set contains `roomId`). -/
def roomMembers (rooms : List (String × List String)) (roomId : String) :
    List String :=
  (rooms.filter (fun p => roomId ∈ p.2)).map (fun p => p.1)

/-- Store an optional map value (`none` deletes the entry). -/
def setOptKey {α : Type} (m : List (String × α)) (k : String) :
    Option α → List (String × α)
  | some v => setKey m k v
  | none => delKey m k

/-- The outcome of `handleSignal`: either a single `signal{from, data}`
event addressed to the target socket, or one of the distinct silent drops
(the handler `return`s without emitting anything). -/
inductive SignalResult (α : Type) where
  | emit (tgt sender : String) (data : α)
  | dropBadTarget
  | dropBadData
  | dropBadFileId
  | dropTargetFormat
  | dropSenderNotInRoom
  | dropTargetNotConnected
  | dropTargetNotInRoom
deriving DecidableEq, Repr

/-- `handleSignal` (`socketHandlers.ts`): shape checks on `target`, `data`
and `fileId`, then the sender-in-room, target-connected and target-in-room
guards, then a single verbatim relay.  `data` is `some d` exactly when the
field holds a (truthy) object. -/
def handleSignal {α : Type} (st : SrvState) (senderId : String)
    (target : JSField) (data : Option α) (fileId : JSField) : SignalResult α :=
  match target with
  | .strVal t =>
    if t = "" then .dropBadTarget
    else
      match data with
      | none => .dropBadData
      | some d =>
        match fileId with
        | .strVal f =>
          if f = "" then .dropBadFileId
          else if ¬ (validateSocketId (.strVal t)).1 then .dropTargetFormat
          else if f ∉ roomsOf st senderId then .dropSenderNotInRoom
          else if t ∉ st.connected then .dropTargetNotConnected
          else if f ∉ roomsOf st t then .dropTargetNotInRoom
          else .emit t senderId d
        | _ => .dropBadFileId
  | _ => .dropBadTarget

/-- The inbound `upload-init` payload. -/
structure UploadPayload where
  fileName : JSField
  fileSize : JSNumField
  fileType : JSField
  password : JSField
deriving DecidableEq, Repr

/-- The single event `handleUploadInit` emits back to the uploader. -/
inductive UploadEmit where
  | err (message : String)
  | created (fileId : String) (warnings : Option (List String))
deriving DecidableEq, Repr

/-- `data.fileSize` passes `!data.fileSize || typeof !== 'number'`. -/
def JSNumField.isTruthyNumber : JSNumField → Bool
  | .numVal n => n ≠ 0
  | _ => false

/-- The numeric value of a field known to be a number (`0` otherwise). -/
def JSNumField.num : JSNumField → Int
  | .numVal n => n
  | _ => 0

/-- The tail of `handleUploadInit` after all validation: create the
repository row, register the session (minting a one-time code that the
handler discards), join the uploader to the room and emit
`upload-created{fileId, warnings?}`. -/
def finishUploadInit (enc : String → String) (now : Nat) (newId : String)
    (rand : Fin 6 → Fin 32) (socketId : String) (nameS sanitizedName : String)
    (sizeN : Int) (typeRes : FileTypeResult) (passwordHash : Option String)
    (st : SrvState) : UploadEmit × SrvState :=
  let dangerousCheck := checkDangerousFileExtension nameS
  let fileTypeWarning := if typeRes.isDangerous then typeRes.warningMessage else none
  let extensionWarning :=
    if dangerousCheck.isDangerous then dangerousCheck.warningMessage else none
  let row : FileSession :=
    ⟨enc sanitizedName, sizeN, enc (typeRes.sanitized.getD ""), passwordHash,
      "waiting", now⟩
  let warnings := [extensionWarning, fileTypeWarning].filterMap id
  (.created newId (if warnings.length > 0 then some warnings else none),
    { st with
        db := setKey st.db newId row,
        registry := (smRegister st.registry newId socketId now rand).2,
        rooms := joinRoom st.rooms socketId newId })

/-- The validation block of `handleUploadInit`, in source order: payload
shape, `fileName`, `fileSize`, `fileType` presence checks, the three
validators, then the optional password (4–128 characters, hashed with
SHA-256).  Returns the error message emitted on failure, or the original
file name, sanitized name, size, file-type result and password hash. -/
def uploadValidate (sha : String → String) (payload : Option UploadPayload) :
    Except String (String × String × Int × FileTypeResult × Option String) :=
  match payload with
  | none => .error "Invalid data format"
  | some p =>
    if ¬ p.fileName.isTruthyString then .error "File name is required"
    else if ¬ p.fileSize.isTruthyNumber then .error "File size is required"
    else if ¬ p.fileType.isTruthyString then .error "File type is required"
    else
      let nameV := validateFileName p.fileName
      if ¬ nameV.1 then .error (nameV.2.2.getD "")
      else
        let sizeV := validateFileSize p.fileSize
        if ¬ sizeV.1 then .error (sizeV.2.getD "")
        else
          let typeV := validateFileType p.fileType
          if ¬ typeV.valid then .error (typeV.error.getD "")
          else if p.password.truthy then
            if ¬ p.password.isString then .error "Invalid password format"
            else if ¬ (validatePassword p.password).1 then
              .error ((validatePassword p.password).2.getD "")
            else .ok (p.fileName.str, nameV.2.1.getD "", p.fileSize.num, typeV,
              some (hashPassword sha p.password.str))
          else .ok (p.fileName.str, nameV.2.1.getD "", p.fileSize.num, typeV, none)

/-- `handleUploadInit` (`socketHandlers.ts`): upload-init limiter, session
limiter, the validation block, then `finishUploadInit`.  `enc` is the
AES-GCM `encrypt` primitive and `sha` the SHA-256 digest; `newId` is the id
the repository assigns and `rand` feeds the code mint. -/
def handleUploadInit (enc sha : String → String) (now : Nat) (newId : String)
    (rand : Fin 6 → Fin 32) (socketId ip : String)
    (payload : Option UploadPayload) (st : SrvState) : UploadEmit × SrvState :=
  let rl := rateLimiterCheck 300000 5 now (lookupKey st.uploadLimiter socketId)
  let st1 := { st with uploadLimiter := setKey st.uploadLimiter socketId rl.2 }
  if ¬ rl.1 then
    (.err ("Too many upload attempts. Please wait " ++
      toString ((rl.2.resetTime - now + 999) / 1000) ++ " seconds."), st1)
  else
    let sl := sessionLimiterCheck now (lookupKey st1.sessionLim ip)
    let st2 := { st1 with sessionLim := setOptKey st1.sessionLim ip sl.2 }
    if ¬ sl.1.allowed then (.err (sl.1.reason.getD ""), st2)
    else
      match uploadValidate sha payload with
      | .error msg => (.err msg, st2)
      | .ok (nameS, sanitizedName, sizeN, typeV, pwHash) =>
        finishUploadInit enc now newId rand socketId nameS sanitizedName sizeN
          typeV pwHash st2

/-- The `file-meta` payload sent to a joiner. -/
structure FileMeta where
  fileName : String
  fileSize : String
  fileType : String
  isDangerous : Bool
  warnings : Option (List String)
deriving DecidableEq, Repr

/-- The outcome of `handleJoinRoom`: an `error{message, passwordRequired?}`
to the joiner, or `file-meta` to the joiner plus `receiver-joined` broadcast
to the other members of the session's room. -/
inductive JoinEmit where
  | err (message : String) (passwordRequired : Bool)
  | joined (meta : FileMeta) (receiverId : String) (recipients : List String)
deriving DecidableEq, Repr

/-- The `file-meta` payload built for a joiner: decrypted name and type,
the size as a string, and the danger flags recomputed on the decrypted
values. -/
def fileMetaOf (dec : String → String) (row : FileSession) : FileMeta :=
  let decryptedFileName := dec row.fileName
  let decryptedFileType := dec row.fileType
  let dangerousCheck := checkDangerousFileExtension decryptedFileName
  let fileTypeValidation := validateFileType (.strVal decryptedFileType)
  let warnings :=
    [if dangerousCheck.isDangerous then dangerousCheck.warningMessage else none,
     if fileTypeValidation.isDangerous then fileTypeValidation.warningMessage
     else none].filterMap id
  ⟨decryptedFileName, toString row.fileSize, decryptedFileType,
    dangerousCheck.isDangerous || fileTypeValidation.isDangerous,
    if warnings.length > 0 then some warnings else none⟩

/-- The tail of `handleJoinRoom` after the password gate: completed check,
status update to `active`, `socket.join`, `file-meta` to the joiner and
`receiver-joined` to the rest of the room. -/
def joinRoomTail (dec : String → String) (socketId f : String)
    (row : FileSession) (st1 : SrvState) : JoinEmit × SrvState :=
  if row.status = "completed" then
    (.err "This file has already been downloaded" false, st1)
  else
    let st2 := { st1 with
      db := setKey st1.db f
        ⟨row.fileName, row.fileSize, row.fileType, row.passwordHash,
          "active", row.createdAt⟩,
      rooms := joinRoom st1.rooms socketId f }
    (.joined (fileMetaOf dec row) socketId
      ((roomMembers st2.rooms f).filter (fun m => m ≠ socketId)), st2)

/-- `handleJoinRoom` (`socketHandlers.ts`): `fileId` shape check, join
limiter, UUID validation, repository lookup, optional password
verification, completed-status check; on success set status `active`, join
the room, emit `file-meta` (decrypted fields) and `receiver-joined`.
`dec` is the AES-GCM `decrypt` primitive and `sha` the SHA-256 digest. -/
def handleJoinRoom (dec sha : String → String) (now : Nat) (socketId ip : String)
    (fileId password : JSField) (st : SrvState) : JoinEmit × SrvState :=
  if ¬ fileId.isTruthyString then (.err "File ID is required" false, st)
  else
    let f := fileId.str
    let rl := rateLimiterCheck 60000 20 now (lookupKey st.joinLimiter socketId)
    let st1 := { st with joinLimiter := setKey st.joinLimiter socketId rl.2 }
    if ¬ rl.1 then
      (.err ("Too many join attempts. Please wait " ++
        toString ((rl.2.resetTime - now + 999) / 1000) ++ " seconds.") false, st1)
    else
      let uuidV := validateUUID fileId
      if ¬ uuidV.1 then (.err (uuidV.2.getD "") false, st1)
      else
        match lookupKey st1.db f with
        | none => (.err "File not found or expired" false, st1)
        | some row =>
          if strOptTruthy row.passwordHash then
            if ¬ password.isTruthyString then (.err "Password required" true, st1)
            else if ¬ verifyPassword sha password.str (row.passwordHash.getD "") then
              (.err "Incorrect password" true, st1)
            else joinRoomTail dec socketId f row st1
          else joinRoomTail dec socketId f row st1

/-- `handleTransferComplete` (`handlers/transferComplete.ts`, the variant
that deletes the row): delete the repository row, remove the registry
entry, and decrement the session limiter for the *completing* socket's IP
(`socket.handshake.address`).  A missing row makes `prisma.delete` throw,
so the `catch` leaves all state untouched. -/
def handleTransferComplete (socketId ip : String) (fileId : JSField)
    (st : SrvState) : SrvState :=
  match fileId with
  | .strVal f =>
    if f = "" then st
    else
      match lookupKey st.db f with
      | none => st
      | some _ =>
        { st with
            db := delKey st.db f,
            registry := smRemove st.registry f,
            sessionLim := setOptKey st.sessionLim ip
              (decrementSession (lookupKey st.sessionLim ip)) }
  | _ => st

/-- 24 hours in milliseconds. -/
def DAY_MS : Nat := 24 * 60 * 60 * 1000

/-- The hourly sweeper's repository purge (`src/server/src/index.tsx`):
`prisma.fileSession.deleteMany({where: {createdAt: {lt: oneDayAgo}}})`,
with no status filter. -/
def cleanupSessions (now : Nat) (db : List (String × FileSession)) :
    List (String × FileSession) :=
  db.filter (fun p => ¬ (p.2.createdAt < now - DAY_MS))

/-! ## Map helper lemmas -/

theorem lookupKey_filter_self {α : Type} (m : List (String × α)) (k : String) :
    lookupKey (m.filter (fun p => p.1 ≠ k)) k = none := by
  induction m with
  | nil => rfl
  | cons p rest ih =>
    obtain ⟨k1, v1⟩ := p
    simp only [List.filter_cons]
    by_cases h : k1 = k
    · rw [if_neg (by simp [h])]
      exact ih
    · rw [if_pos (by simp [h])]
      simp only [lookupKey]
      rw [if_neg h]
      exact ih

theorem lookupKey_delKey_self {α : Type} (m : List (String × α)) (k : String) :
    lookupKey (delKey m k) k = none :=
  lookupKey_filter_self m k

theorem lookupKey_delKey_ne {α : Type} (m : List (String × α)) (k k' : String)
    (h : k ≠ k') : lookupKey (delKey m k) k' = lookupKey m k' :=
  lookupKey_filter_ne m k k' h

theorem lookupKey_setOptKey_self {α : Type} (m : List (String × α)) (k : String)
    (o : Option α) : lookupKey (setOptKey m k o) k = o := by
  cases o with
  | none => exact lookupKey_delKey_self m k
  | some v => exact lookupKey_setKey_self m k v

theorem lookupKey_setOptKey_ne {α : Type} (m : List (String × α)) (k k' : String)
    (o : Option α) (h : k ≠ k') :
    lookupKey (setOptKey m k o) k' = lookupKey m k' := by
  cases o with
  | none => exact lookupKey_delKey_ne m k k' h
  | some v => exact lookupKey_setKey_ne m k k' v h

theorem joinRoom_mem (rooms : List (String × List String)) (s r : String) :
    r ∈ (lookupKey (joinRoom rooms s r) s).getD [] := by
  unfold joinRoom
  by_cases h : r ∈ (lookupKey rooms s).getD []
  · rw [if_pos h]; exact h
  · rw [if_neg h]
    rw [lookupKey_setKey_self]
    simp

/-- `decrementSession` always lowers the observable count by one (clamped
at zero, since a zero count is left alone and a removed entry counts 0). -/
theorem trackerCount_decrementSession (tr : Option SessionTracker) :
    trackerCount (decrementSession tr) = trackerCount tr - 1 := by
  cases tr with
  | none => simp [decrementSession, trackerCount]
  | some t =>
    simp only [decrementSession]
    by_cases h : t.count > 0
    · rw [if_pos h]
      by_cases h1 : t.count - 1 = 0
      · rw [if_pos h1]; simp [trackerCount]; omega
      · rw [if_neg h1]; simp [trackerCount]
    · rw [if_neg h]
      simp only [trackerCount]
      omega

/-! ## One-time-code mint lemmas -/

theorem generateOneTimeCode_length (rand : Fin 6 → Fin 32) :
    (generateOneTimeCode rand).length = 6 := by
  simp [generateOneTimeCode, String.length]

theorem codeChars_getD_mem : ∀ j : Fin 32, codeChars.getD j.val 'A' ∈ codeChars := by
  decide

theorem generateOneTimeCode_mem (rand : Fin 6 → Fin 32) (c : Char)
    (hc : c ∈ (generateOneTimeCode rand).data) : c ∈ codeChars := by
  simp only [generateOneTimeCode] at hc
  rw [List.mem_map] at hc
  obtain ⟨i, _, hi⟩ := hc
  rw [← hi]
  exact codeChars_getD_mem (rand i)

/-! ## Claim theorems -/

/-- **C8.** Every session whose age exceeds 24 hours is deleted from the
repository by the sweeper's hourly run regardless of its status: after
`cleanupSessions` no remaining entry is older than 24 hours, and every
entry older than 24 hours (whatever its `status` field holds) is gone. -/
theorem claim_C8_sweeper_deletes_old (now : Nat) (db : List (String × FileSession)) :
    (∀ e ∈ cleanupSessions now db, ¬ (now - e.2.createdAt > DAY_MS)) ∧
    (∀ e ∈ db, now - e.2.createdAt > DAY_MS → e ∉ cleanupSessions now db) := by
  constructor
  · intro e he hage
    have hcond := List.of_mem_filter he
    simp only [decide_eq_true_eq] at hcond
    omega
  · intro e _ hage hmem
    have hcond := List.of_mem_filter hmem
    simp only [decide_eq_true_eq] at hcond
    omega

/-- **C8 witness.** A concrete WAITING session created at time 0 is absent
after a sweep at time 200000000 (age ≈ 2.3 days). -/
theorem claim_C8_sweeper_witness :
    (("old", (⟨"enc-name", 1, "enc-type", none, "waiting", 0⟩ : FileSession)) ∉
      cleanupSessions 200000000
        [("old", ⟨"enc-name", 1, "enc-type", none, "waiting", 0⟩),
         ("new", ⟨"enc-name", 1, "enc-type", none, "active", 150000000⟩)]) :=
  (claim_C8_sweeper_deletes_old 200000000
      [("old", ⟨"enc-name", 1, "enc-type", none, "waiting", 0⟩),
       ("new", ⟨"enc-name", 1, "enc-type", none, "active", 150000000⟩)]).2
    ("old", ⟨"enc-name", 1, "enc-type", none, "waiting", 0⟩)
    (by decide) (by decide)

/-- **C9.** `decrypt` returns the input unchanged whenever the value does
not have exactly two `:` separators, and whenever authenticated decryption
fails (modelled by the AES-GCM primitive returning `none`). -/
theorem claim_C9_decrypt_passthrough
    (gcm : String → String → String → Option String) (text : String) :
    (text.data.count ':' ≠ 2 → decrypt gcm text = text) ∧
    ((∀ iv tag ct, gcm iv tag ct = none) → decrypt gcm text = text) := by
  constructor
  · intro hc
    have hlen : ((splitOnChar ':' text.data).map String.mk).length ≠ 3 := by
      rw [List.length_map, splitOnChar_length]
      omega
    unfold decrypt
    split
    · rename_i iv tag ct heq
      exact absurd (by rw [heq]; rfl :
        ((splitOnChar ':' text.data).map String.mk).length = 3) hlen
    · rfl
  · intro hg
    unfold decrypt
    split
    · rename_i iv tag ct heq
      split
      · rfl
      · simp [hg iv tag ct]
    · rfl

/-- **C9 witness.** A value with no separators and a three-field value on
which decryption fails both pass through unchanged. -/
theorem claim_C9_decrypt_witness :
    ("plain-legacy-value".data.count ':' ≠ 2 ∧
      decrypt (fun _ _ _ => none) "plain-legacy-value" = "plain-legacy-value") ∧
    decrypt (fun _ _ _ => none) "aa:bb:cc" = "aa:bb:cc" :=
  ⟨⟨by decide, (claim_C9_decrypt_passthrough (fun _ _ _ => none)
      "plain-legacy-value").1 (by decide)⟩,
    (claim_C9_decrypt_passthrough (fun _ _ _ => none) "aa:bb:cc").2
      (fun _ _ _ => rfl)⟩

/-- **C6 (amended).** The token-bucket semantics hold exactly as stated
(fresh or expired bucket → count 1 and allow; count below the cap →
increment and allow; otherwise deny without touching the entry), and each
*bucket window* admits at most `max` accepted calls — at most 10
connections per bucket for the 60 s connection limiter and at most 5
upload-inits per bucket for the 300 s upload limiter.  The original
any-60-second-window bound fails (see the counterexample): two adjacent
buckets can both fall inside one sliding window. -/
theorem claim_C6_rate_limiter_semantics (w m now : Nat) :
    (rateLimiterCheck w m now none = (true, ⟨1, now + w⟩)) ∧
    (∀ e : RateLimitEntry, now > e.resetTime →
      rateLimiterCheck w m now (some e) = (true, ⟨1, now + w⟩)) ∧
    (∀ e : RateLimitEntry, ¬ now > e.resetTime → e.count < m →
      rateLimiterCheck w m now (some e) = (true, ⟨e.count + 1, e.resetTime⟩)) ∧
    (∀ e : RateLimitEntry, ¬ now > e.resetTime → e.count ≥ m →
      rateLimiterCheck w m now (some e) = (false, e)) ∧
    (∀ t0 : Nat, ∀ ts : List Nat,
      (∀ t ∈ ts, t ≤ t0 + connectionLimiterParams.1) →
      (runLimiter connectionLimiterParams.1 connectionLimiterParams.2
        none (t0 :: ts)).length ≤ 10) ∧
    (∀ t0 : Nat, ∀ ts : List Nat,
      (∀ t ∈ ts, t ≤ t0 + uploadInitLimiterParams.1) →
      (runLimiter uploadInitLimiterParams.1 uploadInitLimiterParams.2
        none (t0 :: ts)).length ≤ 5) := by
  refine ⟨rfl, ?_, ?_, ?_, ?_, ?_⟩
  · intro e he
    simp [rateLimiterCheck, he]
  · intro e he hc
    simp [rateLimiterCheck, he, Nat.not_le.mpr hc]
  · intro e he hc
    simp [rateLimiterCheck, he, hc]
  · intro t0 ts hts
    exact runLimiter_window_bound _ _ (by decide) t0 ts hts
  · intro t0 ts hts
    exact runLimiter_window_bound _ _ (by decide) t0 ts hts

/-- **C6 witness.** A fresh bucket allows with count 1; a full bucket
denies; and eleven calls inside one bucket window accept only ten. -/
theorem claim_C6_rate_limiter_witness :
    rateLimiterCheck 60000 10 5 none = (true, ⟨1, 60005⟩) ∧
    rateLimiterCheck 60000 10 6 (some ⟨10, 60005⟩) = (false, ⟨10, 60005⟩) ∧
    (runLimiter 60000 10 none
      (0 :: List.replicate 11 30000)).length ≤ 10 :=
  ⟨(claim_C6_rate_limiter_semantics 60000 10 5).1,
    (claim_C6_rate_limiter_semantics 60000 10 6).2.2.2.1 ⟨10, 60005⟩
      (by decide) (by decide),
    (claim_C6_rate_limiter_semantics 60000 10 0).2.2.2.2.1 0
      (List.replicate 11 30000) (by decide)⟩

/-- **C6 counterexample.** The claimed bound "at most 10 connections
accepted in any 60-second window" is false: one accepted call at time 0,
nine at time 60000 (still the first bucket) and ten at time 60001 (a fresh
bucket) put 19 accepted connections inside the 60-second window
[2, 60001]. -/
theorem claim_C6_rate_limiter_counterexample :
    ((runLimiter 60000 10 none
        ([0] ++ List.replicate 9 60000 ++ List.replicate 10 60001)).filter
      (fun t => 2 ≤ t && t ≤ 60001)).length = 19 := by
  decide

/-- **C7 (amended).** From the empty state the session limiter's stored
count for an IP never exceeds 10 (the concurrent ceiling), and
`decrementSession` clamps at 0 — a zero count is left untouched, a count
of 1 removes the entry, a larger count is decremented in place.  The
20-sessions-per-hour ceiling is *not* enforced (see the counterexample):
the `count ≥ 20` branch is unreachable because the same counter is capped
at 10 and resets whenever it returns to 0 or the window expires. -/
theorem claim_C7_session_cap (ops : List SLOp) :
    trackerCount (runSessionOps none ops).1 ≤ 10 ∧
    (∀ t : SessionTracker, t.count = 0 → decrementSession (some t) = some t) ∧
    (∀ t : SessionTracker, t.count = 1 → decrementSession (some t) = none) ∧
    (∀ t : SessionTracker, 2 ≤ t.count →
      decrementSession (some t) =
        some ⟨t.count - 1, t.firstSessionTime, t.lastSessionTime⟩) ∧
    decrementSession none = none := by
  refine ⟨runSessionOps_count_le ops none (by simp [trackerCount]), ?_, ?_, ?_, rfl⟩
  · intro t ht
    simp [decrementSession, ht]
  · intro t ht
    simp [decrementSession, ht]
  · intro t ht
    have h1 : t.count > 0 := by omega
    have h2 : ¬ (t.count - 1 = 0) := by omega
    simp [decrementSession, h1, h2]

/-- **C7 witness.** Ten checks at time 0 leave the count at exactly 10;
an eleventh is denied; and decrementing a count of 1 removes the entry. -/
theorem claim_C7_session_cap_witness :
    trackerCount (runSessionOps none (List.replicate 11 (SLOp.chk 0))).1 ≤ 10 ∧
    decrementSession (some ⟨1, 0, 0⟩) = none :=
  ⟨(claim_C7_session_cap (List.replicate 11 (SLOp.chk 0))).1,
    (claim_C7_session_cap []).2.2.1 ⟨1, 0, 0⟩ (by decide)⟩

/-- **C7 counterexample.** "At most 20 sessions created per hour" is
false: creating ten sessions, completing them (which deletes the tracker
at count 0), creating ten more, completing them, and creating one more —
all inside three milliseconds — admits 21 session creations. -/
theorem claim_C7_session_cap_counterexample :
    (runSessionOps none
      (List.replicate 10 (SLOp.chk 0) ++ List.replicate 10 SLOp.dec ++
       List.replicate 10 (SLOp.chk 1) ++ List.replicate 10 SLOp.dec ++
       [SLOp.chk 2])).2 = 21 := by
  decide

/-- **C1.** For a well-formed `signal` event (truthy string target, object
data, truthy string fileId), the handler emits `signal{from, data}` exactly
once to the target — with the payload forwarded verbatim — if and only if
the sender is in the named session's room, the target socket is currently
connected, and the target is in that same room; and each failed check
yields its own distinct silent drop with no outbound event. -/
theorem claim_C1_signal_relay {α : Type} (st : SrvState) (senderId t f : String)
    (d : α) (ht : t ≠ "") (hf : f ≠ "") :
    (handleSignal st senderId (.strVal t) (some d) (.strVal f) =
        SignalResult.emit t senderId d ↔
      f ∈ roomsOf st senderId ∧ t ∈ st.connected ∧ f ∈ roomsOf st t) ∧
    (f ∉ roomsOf st senderId →
      handleSignal st senderId (.strVal t) (some d) (.strVal f) =
        SignalResult.dropSenderNotInRoom) ∧
    (f ∈ roomsOf st senderId → t ∉ st.connected →
      handleSignal st senderId (.strVal t) (some d) (.strVal f) =
        SignalResult.dropTargetNotConnected) ∧
    (f ∈ roomsOf st senderId → t ∈ st.connected → f ∉ roomsOf st t →
      handleSignal st senderId (.strVal t) (some d) (.strVal f) =
        SignalResult.dropTargetNotInRoom) := by
  have hv : (validateSocketId (.strVal t)).1 = true := by
    simp [validateSocketId, ht]
  refine ⟨⟨fun h => ?_, fun hm => ?_⟩, fun h1 => ?_, fun h1 h2 => ?_,
    fun h1 h2 h3 => ?_⟩
  · by_cases h1 : f ∈ roomsOf st senderId
    · by_cases h2 : t ∈ st.connected
      · by_cases h3 : f ∈ roomsOf st t
        · exact ⟨h1, h2, h3⟩
        · simp [handleSignal, ht, hf, hv, h1, h2, h3] at h
      · simp [handleSignal, ht, hf, hv, h1, h2] at h
    · simp [handleSignal, ht, hf, hv, h1] at h
  · obtain ⟨h1, h2, h3⟩ := hm
    simp [handleSignal, ht, hf, hv, h1, h2, h3]
  · simp [handleSignal, ht, hf, hv, h1]
  · simp [handleSignal, ht, hf, hv, h1, h2]
  · simp [handleSignal, ht, hf, hv, h1, h2, h3]

/-- **C1 witness.** In a concrete state where both endpoints share the
session's room and the target is connected, the relay emits the verbatim
payload once; and a sender outside the room is silently dropped. -/
theorem claim_C1_signal_relay_witness :
    handleSignal
      (⟨[], [], [("E1", ["s1"]), ("E2", ["s1"])], ["E1", "E2"], [], [], []⟩ :
        SrvState)
      "E1" (.strVal "E2") (some (99 : Nat)) (.strVal "s1") =
      SignalResult.emit "E2" "E1" 99 ∧
    handleSignal
      (⟨[], [], [("E1", ["s1"]), ("E2", ["s1"])], ["E1", "E2"], [], [], []⟩ :
        SrvState)
      "E3" (.strVal "E2") (some (99 : Nat)) (.strVal "s1") =
      SignalResult.dropSenderNotInRoom :=
  ⟨(claim_C1_signal_relay _ "E1" "E2" "s1" 99 (by decide) (by decide)).1.mpr
      ⟨by decide, by decide, by decide⟩,
    (claim_C1_signal_relay _ "E3" "E2" "s1" 99 (by decide) (by decide)).2.1
      (by decide)⟩

/-- **C4.** `validateCode` gives distinct failure reasons for an absent
session, an already-used code and a mismatched code; verification
uppercases the input and requires an exact match; success flips the `used`
flag to true and the flag never returns to false; once used (or absent),
every later call for that session fails; and over any sequence of
`validateCode` calls at most one succeeds per session. -/
theorem claim_C4_validate_code_single_use (reg : Registry) (fileId code : String) :
    (lookupKey reg fileId = none →
      (smValidateCode reg fileId code).1 = (false, some "Session not found") ∧
      (smValidateCode reg fileId code).2 = reg) ∧
    (∀ s, lookupKey reg fileId = some s → s.codeUsed = true →
      (smValidateCode reg fileId code).1 = (false, some "Code already used") ∧
      (smValidateCode reg fileId code).2 = reg) ∧
    (∀ s, lookupKey reg fileId = some s → s.codeUsed = false →
      s.oneTimeCode ≠ jsToUpper code →
      (smValidateCode reg fileId code).1 = (false, some "Invalid code") ∧
      (smValidateCode reg fileId code).2 = reg) ∧
    (∀ s, lookupKey reg fileId = some s → s.codeUsed = false →
      s.oneTimeCode = jsToUpper code →
      (smValidateCode reg fileId code).1 = (true, none) ∧
      lookupKey (smValidateCode reg fileId code).2 fileId =
        some ⟨s.senderSocketId, s.createdAt, s.oneTimeCode, true⟩) ∧
    (∀ id', regLocked reg id' → regLocked (smValidateCode reg fileId code).2 id') ∧
    (∀ ops : List (String × String), regLocked reg fileId →
      ((runValidates reg ops).1.filter (isSuccessFor fileId)).length = 0) ∧
    (∀ ops : List (String × String),
      ((runValidates reg ops).1.filter (isSuccessFor fileId)).length ≤ 1) := by
  refine ⟨fun hl => ?_, fun s hl hu => ?_, fun s hl hu hc => ?_,
    fun s hl hu hc => ?_,
    fun id' h => smValidateCode_locked reg id' h fileId code,
    fun ops h => runValidates_locked_no_success ops reg fileId h,
    fun ops => runValidates_at_most_once ops reg fileId⟩
  · constructor <;> simp [smValidateCode, hl]
  · constructor <;> simp [smValidateCode, hl, hu]
  · constructor <;> simp [smValidateCode, hl, hu, hc]
  · constructor
    · simp [smValidateCode, hl, hu, hc]
    · simp only [smValidateCode, hl, hu, hc, ne_eq, not_true_eq_false,
        if_false, Bool.false_eq_true]
      exact lookupKey_setKey_self _ _ _

/-- **C4 witness.** A concrete lowercase presentation of the stored code
succeeds once; the immediately repeated call fails with "Code already
used"; and the absent-session and mismatch reasons are as stated. -/
theorem claim_C4_validate_code_witness :
    (smValidateCode [("s1", ⟨"E1", 0, "ABC234", false⟩)] "s1" "abc234").1 =
      (true, none) ∧
    (smValidateCode (smValidateCode [("s1", ⟨"E1", 0, "ABC234", false⟩)]
        "s1" "abc234").2 "s1" "abc234").1 = (false, some "Code already used") ∧
    (smValidateCode [("s1", ⟨"E1", 0, "ABC234", false⟩)] "zz" "abc234").1 =
      (false, some "Session not found") ∧
    (smValidateCode [("s1", ⟨"E1", 0, "ABC234", false⟩)] "s1" "wrong0").1 =
      (false, some "Invalid code") := by
  refine ⟨((claim_C4_validate_code_single_use
      [("s1", ⟨"E1", 0, "ABC234", false⟩)] "s1" "abc234").2.2.2.1
      ⟨"E1", 0, "ABC234", false⟩ (by decide) (by decide) (by decide)).1,
    ?_,
    ((claim_C4_validate_code_single_use
      [("s1", ⟨"E1", 0, "ABC234", false⟩)] "zz" "abc234").1 (by decide)).1,
    ((claim_C4_validate_code_single_use
      [("s1", ⟨"E1", 0, "ABC234", false⟩)] "s1" "wrong0").2.2.1
      ⟨"E1", 0, "ABC234", false⟩ (by decide) (by decide) (by decide)).1⟩
  decide

/-- **C5 (amended).** Processing `transfer-complete` for an existing
session deletes the repository row (a later `find` returns nothing),
removes the registry entry, and decrements — clamped at zero — the
concurrency-cap count for the IP of the endpoint that *sent*
`transfer-complete` (not necessarily the session's sender); all other IPs'
counts are untouched. -/
theorem claim_C5_transfer_complete (st : SrvState) (socketId ip f : String)
    (hf : f ≠ "") (row : FileSession) (hrow : lookupKey st.db f = some row) :
    lookupKey (handleTransferComplete socketId ip (.strVal f) st).db f = none ∧
    lookupKey (handleTransferComplete socketId ip (.strVal f) st).registry f =
      none ∧
    trackerCount
        (lookupKey (handleTransferComplete socketId ip (.strVal f) st).sessionLim
          ip) =
      trackerCount (lookupKey st.sessionLim ip) - 1 ∧
    (∀ ip', ip' ≠ ip →
      lookupKey (handleTransferComplete socketId ip (.strVal f) st).sessionLim
          ip' =
        lookupKey st.sessionLim ip') := by
  have hred : handleTransferComplete socketId ip (.strVal f) st =
      { st with
          db := delKey st.db f,
          registry := smRemove st.registry f,
          sessionLim := setOptKey st.sessionLim ip
            (decrementSession (lookupKey st.sessionLim ip)) } := by
    simp [handleTransferComplete, hf, hrow]
  rw [hred]
  refine ⟨lookupKey_delKey_self _ _, lookupKey_delKey_self _ _, ?_, ?_⟩
  · rw [lookupKey_setOptKey_self]
    exact trackerCount_decrementSession _
  · intro ip' hip
    exact lookupKey_setOptKey_ne _ _ _ _ (Ne.symm hip)

/-- The `upload-init` payload of the spec's happy-path scenario. -/
def photoPayload : UploadPayload :=
  ⟨.strVal "photo.jpg", .numVal 10240, .strVal "image/jpeg", .missing⟩

/-- An empty server state with two connected sockets `S` and `R`. -/
def initialState : SrvState := ⟨[], [], [], ["S", "R"], [], [], []⟩

/-- **C5 witness.** Completing a concrete existing session empties its
repository row and registry entry and decrements the completer IP's count
from 1 to 0 (removing the tracker). -/
theorem claim_C5_transfer_complete_witness :
    lookupKey (handleTransferComplete "R" "1.2.3.4" (.strVal "s1")
        (⟨[("s1", ⟨"n", 1, "t", none, "active", 0⟩)],
          [("s1", ⟨"S", 0, "ABC234", true⟩)], [], [], [], [],
          [("1.2.3.4", ⟨1, 0, 0⟩)]⟩ : SrvState)).db "s1" = none ∧
    trackerCount (lookupKey (handleTransferComplete "R" "1.2.3.4" (.strVal "s1")
        (⟨[("s1", ⟨"n", 1, "t", none, "active", 0⟩)],
          [("s1", ⟨"S", 0, "ABC234", true⟩)], [], [], [], [],
          [("1.2.3.4", ⟨1, 0, 0⟩)]⟩ : SrvState)).sessionLim "1.2.3.4") = 0 :=
  ⟨(claim_C5_transfer_complete _ "R" "1.2.3.4" "s1" (by decide)
      ⟨"n", 1, "t", none, "active", 0⟩ (by decide)).1,
    by
      rw [(claim_C5_transfer_complete _ "R" "1.2.3.4" "s1" (by decide)
        ⟨"n", 1, "t", none, "active", 0⟩ (by decide)).2.2.1]
      decide⟩

/-- **C5 counterexample.** The claim says the concurrency-cap count of the
*session's sender's* IP is decremented.  In a run where sender `S` at IP
`1.2.3.4` creates the session and the receiver `R` at IP `9.9.9.9` sends
`transfer-complete`, the sender's IP count stays at 1: the code decrements
`socket.handshake.address` of the completing socket instead. -/
theorem claim_C5_transfer_complete_counterexample :
    lookupKey (handleUploadInit (fun s => s) (fun s => s) 0
        "aaaaaaaa-bbbb-cccc-dddd-eeeeeeeeeeee" (fun _ => 0) "S" "1.2.3.4"
        (some photoPayload) initialState).2.sessionLim "1.2.3.4" =
      some ⟨1, 0, 0⟩ ∧
    lookupKey (handleTransferComplete "R" "9.9.9.9"
        (.strVal "aaaaaaaa-bbbb-cccc-dddd-eeeeeeeeeeee")
        (handleUploadInit (fun s => s) (fun s => s) 0
          "aaaaaaaa-bbbb-cccc-dddd-eeeeeeeeeeee" (fun _ => 0) "S" "1.2.3.4"
          (some photoPayload) initialState).2).sessionLim "1.2.3.4" =
      some ⟨1, 0, 0⟩ := by
  decide

theorem validatePassword_true_bounds (pw : String) (hne : pw ≠ "")
    (h : (validatePassword (.strVal pw)).1 = true) :
    4 ≤ pw.length ∧ pw.length ≤ 128 := by
  by_cases h1 : pw.length < 4
  · exfalso
    simp [validatePassword, JSField.truthy, hne, h1] at h
  · by_cases h2 : pw.length > 128
    · exfalso
      simp [validatePassword, JSField.truthy, hne, h1, h2] at h
    · omega

/-- A truthy string field is a non-empty `strVal`. -/
theorem JSField.truthy_isString (f : JSField) (h1 : f.truthy = true)
    (h2 : f.isString = true) : ∃ pw, f = JSField.strVal pw ∧ pw ≠ "" := by
  cases f with
  | missing => exact absurd h2 (by simp [JSField.isString])
  | notString b => exact absurd h2 (by simp [JSField.isString])
  | strVal s => exact ⟨s, rfl, by simpa [JSField.truthy] using h1⟩

/-- A validated payload came from a real payload; the password hash is
`none` exactly when no (truthy) password was supplied and is the SHA-256
digest of a 4–128-character string password otherwise. -/
theorem uploadValidate_ok_inv (sha : String → String) (p : Option UploadPayload)
    (nameS sanitizedName : String) (sizeN : Int) (typeV : FileTypeResult)
    (pwHash : Option String)
    (h : uploadValidate sha p =
      Except.ok (nameS, sanitizedName, sizeN, typeV, pwHash)) :
    ∃ pl, p = some pl ∧
      ((pl.password.truthy = false ∧ pwHash = none) ∨
       (∃ pw, pl.password = JSField.strVal pw ∧ pw ≠ "" ∧
          4 ≤ pw.length ∧ pw.length ≤ 128 ∧ pwHash = some (sha pw))) := by
  cases p with
  | none => exact absurd h (by simp [uploadValidate])
  | some pl =>
    refine ⟨pl, rfl, ?_⟩
    simp only [uploadValidate] at h
    split at h
    · exact Except.noConfusion h
    split at h
    · exact Except.noConfusion h
    split at h
    · exact Except.noConfusion h
    split at h
    · exact Except.noConfusion h
    split at h
    · exact Except.noConfusion h
    split at h
    · exact Except.noConfusion h
    split at h
    case isTrue htr =>
      split at h
      · exact Except.noConfusion h
      case isFalse hstr =>
        split at h
        · exact Except.noConfusion h
        case isFalse hvp =>
          obtain ⟨pw, hpw, hpwne⟩ := JSField.truthy_isString pl.password htr
            (by simpa using hstr)
          have hb := validatePassword_true_bounds pw hpwne
            (by
              have hv : (validatePassword pl.password).1 = true := by
                simpa using hvp
              rw [hpw] at hv
              exact hv)
          simp only [Except.ok.injEq, Prod.mk.injEq] at h
          obtain ⟨-, -, -, -, hph⟩ := h
          subst hph
          exact Or.inr ⟨pw, hpw, hpwne, hb.1, hb.2, by rw [hpw]; rfl⟩
    case isFalse htr =>
      simp only [Except.ok.injEq, Prod.mk.injEq] at h
      obtain ⟨-, -, -, -, hph⟩ := h
      subst hph
      exact Or.inl ⟨by simpa using htr, rfl⟩

/-- Inversion of a successful `upload-init`: the reply id is the
repository-assigned id, the stored row is WAITING and carries the SHA-256
hash of a 4–128-character password exactly when one was supplied, and the
registry entry minted by `register` holds the generated one-time code —
which appears nowhere in the reply. -/
theorem handleUploadInit_created_inv
    (enc sha : String → String) (now : Nat) (newId : String)
    (rand : Fin 6 → Fin 32) (socketId ip : String) (p : Option UploadPayload)
    (st : SrvState) (fid : String) (w : Option (List String))
    (h : (handleUploadInit enc sha now newId rand socketId ip p st).1 =
      UploadEmit.created fid w) :
    fid = newId ∧
    ∃ (pl : UploadPayload) (st' : SrvState),
      p = some pl ∧
      handleUploadInit enc sha now newId rand socketId ip p st =
        (UploadEmit.created newId w, st') ∧
      (∃ row : FileSession,
        lookupKey st'.db newId = some row ∧ row.status = "waiting" ∧
        ((pl.password.truthy = false ∧ row.passwordHash = none) ∨
          (∃ pw, pl.password = JSField.strVal pw ∧ pw ≠ "" ∧
            4 ≤ pw.length ∧ pw.length ≤ 128 ∧
            row.passwordHash = some (sha pw)))) ∧
      (∃ e : ActiveSession,
        lookupKey st'.registry newId = some e ∧
        e.oneTimeCode = generateOneTimeCode rand ∧
        e.senderSocketId = socketId) := by
  rcases hE : handleUploadInit enc sha now newId rand socketId ip p st with ⟨emt, st'⟩
  rw [hE] at h
  replace h : emt = UploadEmit.created fid w := h
  subst h
  simp only [handleUploadInit] at hE
  split at hE
  · exact UploadEmit.noConfusion (congrArg Prod.fst hE)
  split at hE
  · exact UploadEmit.noConfusion (congrArg Prod.fst hE)
  split at hE
  · exact UploadEmit.noConfusion (congrArg Prod.fst hE)
  rename_i nameS sanitizedName sizeN typeV pwHash hval
  simp only [finishUploadInit, Prod.mk.injEq] at hE
  obtain ⟨hemt, hst⟩ := hE
  subst hst
  injection hemt with h1 h2
  subst h1
  subst h2
  obtain ⟨pl, hpl, hdisj⟩ := uploadValidate_ok_inv sha p nameS sanitizedName
    sizeN typeV pwHash hval
  subst hpl
  refine ⟨rfl, pl, _, rfl, rfl,
    ⟨_, lookupKey_setKey_self _ _ _, rfl, hdisj⟩,
    ⟨⟨socketId, now, generateOneTimeCode rand, false⟩, ?_, rfl, rfl⟩⟩
  simp only [smRegister]
  exact lookupKey_setKey_self _ _ _

/-- **C2 (amended).** For every successful `upload-init`, the reply
`upload-created` carries the new session id (and optional warnings) but
*no* one-time code; the registry's `register` operation does mint and store
a 6-character code drawn from `ABCDEFGHJKLMNPQRSTUVWXYZ23456789`, but the
handler discards the returned code instead of including it in the reply. -/
theorem claim_C2_upload_created_no_code (enc sha : String → String) (now : Nat)
    (newId : String) (rand : Fin 6 → Fin 32) (socketId ip : String)
    (p : Option UploadPayload) (st : SrvState) (fid : String)
    (w : Option (List String))
    (h : (handleUploadInit enc sha now newId rand socketId ip p st).1 =
      UploadEmit.created fid w) :
    fid = newId ∧
    ∃ e : ActiveSession,
      lookupKey
          (handleUploadInit enc sha now newId rand socketId ip p st).2.registry
          newId = some e ∧
      e.oneTimeCode.length = 6 ∧
      (∀ c ∈ e.oneTimeCode.data, c ∈ codeChars) := by
  obtain ⟨hfid, pl, st', hpl, hEq, hrow, e, hreg, hcode, hsend⟩ :=
    handleUploadInit_created_inv enc sha now newId rand socketId ip p st fid w h
  refine ⟨hfid, e, ?_, ?_, ?_⟩
  · rw [hEq]
    exact hreg
  · rw [hcode]
    exact generateOneTimeCode_length rand
  · intro c hc
    rw [hcode] at hc
    exact generateOneTimeCode_mem rand c hc

/-- **C2 witness.** The happy-path upload mints and stores a registry code
of 6 alphabet characters while the reply carries only the id. -/
theorem claim_C2_upload_created_no_code_witness :
    "aaaaaaaa-bbbb-cccc-dddd-eeeeeeeeeeee" =
      "aaaaaaaa-bbbb-cccc-dddd-eeeeeeeeeeee" ∧
    ∃ e : ActiveSession,
      lookupKey (handleUploadInit (fun s => s) (fun s => s) 0
          "aaaaaaaa-bbbb-cccc-dddd-eeeeeeeeeeee" (fun _ => 0) "S" "1.2.3.4"
          (some photoPayload) initialState).2.registry
        "aaaaaaaa-bbbb-cccc-dddd-eeeeeeeeeeee" = some e ∧
      e.oneTimeCode.length = 6 ∧
      (∀ c ∈ e.oneTimeCode.data, c ∈ codeChars) :=
  claim_C2_upload_created_no_code (fun s => s) (fun s => s) 0
    "aaaaaaaa-bbbb-cccc-dddd-eeeeeeeeeeee" (fun _ => 0) "S" "1.2.3.4"
    (some photoPayload) initialState "aaaaaaaa-bbbb-cccc-dddd-eeeeeeeeeeee"
    none (by decide)

/-- **C2 counterexample.** The reply cannot "carry the minted code": two
runs that differ only in the randomness mint the distinct codes `AAAAAA`
and `BBBBBB`, yet emit byte-for-byte identical `upload-created` events —
`{fileId, warnings: none}` with no code field at all. -/
theorem claim_C2_upload_created_counterexample :
    (handleUploadInit (fun s => s) (fun s => s) 0
        "aaaaaaaa-bbbb-cccc-dddd-eeeeeeeeeeee" (fun _ => 0) "S" "1.2.3.4"
        (some photoPayload) initialState).1 =
      (handleUploadInit (fun s => s) (fun s => s) 0
        "aaaaaaaa-bbbb-cccc-dddd-eeeeeeeeeeee" (fun _ => 1) "S" "1.2.3.4"
        (some photoPayload) initialState).1 ∧
    (handleUploadInit (fun s => s) (fun s => s) 0
        "aaaaaaaa-bbbb-cccc-dddd-eeeeeeeeeeee" (fun _ => 0) "S" "1.2.3.4"
        (some photoPayload) initialState).1 =
      UploadEmit.created "aaaaaaaa-bbbb-cccc-dddd-eeeeeeeeeeee" none ∧
    (lookupKey (handleUploadInit (fun s => s) (fun s => s) 0
        "aaaaaaaa-bbbb-cccc-dddd-eeeeeeeeeeee" (fun _ => 0) "S" "1.2.3.4"
        (some photoPayload) initialState).2.registry
      "aaaaaaaa-bbbb-cccc-dddd-eeeeeeeeeeee").map ActiveSession.oneTimeCode =
      some "AAAAAA" ∧
    (lookupKey (handleUploadInit (fun s => s) (fun s => s) 0
        "aaaaaaaa-bbbb-cccc-dddd-eeeeeeeeeeee" (fun _ => 1) "S" "1.2.3.4"
        (some photoPayload) initialState).2.registry
      "aaaaaaaa-bbbb-cccc-dddd-eeeeeeeeeeee").map ActiveSession.oneTimeCode =
      some "BBBBBB" := by
  decide

/-- The state right after the join limiter has recorded the attempt (the
only state change on the `join-room` error paths past the shape check). -/
def joinSt1 (now : Nat) (socketId : String) (st : SrvState) : SrvState :=
  { st with
      joinLimiter := setKey st.joinLimiter socketId
        (rateLimiterCheck 60000 20 now (lookupKey st.joinLimiter socketId)).2 }

/-- **C3 (amended).** `join-room` succeeds only when the `fileId` is a
truthy string, the join limiter allows the attempt, the id passes UUID
validation, the session is found in the repository, the session's password
(when one is set) verifies, and the status is not `completed`; on success
the repository status is set to `active`, the joining endpoint is added to
the room and receives `file-meta`, and `receiver-joined` is broadcast to
the other room members.  There is no one-time-code verification, no
sender-registration check, and no `invalidCode` flag; the password errors
carry `passwordRequired` instead (see C10). -/
theorem claim_C3_join_room (dec sha : String → String) (now : Nat)
    (socketId ip f : String) (password : JSField) (st : SrvState)
    (hf : f ≠ "") :
    (∀ fid : JSField, fid.isTruthyString = false →
      handleJoinRoom dec sha now socketId ip fid password st =
        (.err "File ID is required" false, st)) ∧
    ((rateLimiterCheck 60000 20 now (lookupKey st.joinLimiter socketId)).1 =
        false →
      (handleJoinRoom dec sha now socketId ip (.strVal f) password st).1 =
        .err ("Too many join attempts. Please wait " ++
          toString (((rateLimiterCheck 60000 20 now
              (lookupKey st.joinLimiter socketId)).2.resetTime - now + 999) /
            1000) ++ " seconds.") false) ∧
    ((rateLimiterCheck 60000 20 now (lookupKey st.joinLimiter socketId)).1 =
        true →
      uuidFormatOk f = false →
      handleJoinRoom dec sha now socketId ip (.strVal f) password st =
        (.err "Invalid ID format" false, joinSt1 now socketId st)) ∧
    ((rateLimiterCheck 60000 20 now (lookupKey st.joinLimiter socketId)).1 =
        true →
      uuidFormatOk f = true → lookupKey st.db f = none →
      handleJoinRoom dec sha now socketId ip (.strVal f) password st =
        (.err "File not found or expired" false, joinSt1 now socketId st)) ∧
    (∀ row : FileSession,
      (rateLimiterCheck 60000 20 now (lookupKey st.joinLimiter socketId)).1 =
        true →
      uuidFormatOk f = true →
      lookupKey st.db f = some row → strOptTruthy row.passwordHash = false →
      (row.status = "completed" →
        handleJoinRoom dec sha now socketId ip (.strVal f) password st =
          (.err "This file has already been downloaded" false,
            joinSt1 now socketId st)) ∧
      (row.status ≠ "completed" →
        handleJoinRoom dec sha now socketId ip (.strVal f) password st =
          (.joined (fileMetaOf dec row) socketId
            ((roomMembers (joinRoom (joinSt1 now socketId st).rooms socketId f)
               f).filter (fun m => m ≠ socketId)),
            { joinSt1 now socketId st with
                db := setKey (joinSt1 now socketId st).db f
                  ⟨row.fileName, row.fileSize, row.fileType, row.passwordHash,
                    "active", row.createdAt⟩,
                rooms := joinRoom (joinSt1 now socketId st).rooms socketId f }) ∧
        lookupKey
            (handleJoinRoom dec sha now socketId ip (.strVal f) password st).2.db
            f =
          some ⟨row.fileName, row.fileSize, row.fileType, row.passwordHash,
            "active", row.createdAt⟩ ∧
        f ∈ (lookupKey
            (handleJoinRoom dec sha now socketId ip (.strVal f) password st).2.rooms
            socketId).getD [])) := by
  refine ⟨?_, ?_, ?_, ?_, ?_⟩
  · intro fid hfid
    simp [handleJoinRoom, hfid]
  · intro hrl
    simp [handleJoinRoom, JSField.isTruthyString, JSField.str, hf, hrl]
  · intro hrl huuid
    simp [handleJoinRoom, joinSt1, JSField.isTruthyString, JSField.str, hf, hrl,
      validateUUID, huuid]
  · intro hrl huuid hnone
    simp [handleJoinRoom, joinSt1, JSField.isTruthyString, JSField.str, hf, hrl,
      validateUUID, huuid, hnone]
  · intro row hrl huuid hrow hpw
    have hmain0 : handleJoinRoom dec sha now socketId ip (.strVal f) password st =
        joinRoomTail dec socketId f row (joinSt1 now socketId st) := by
      simp [handleJoinRoom, joinSt1, JSField.isTruthyString, JSField.str, hf,
        hrl, validateUUID, huuid, hrow, hpw]
    constructor
    · intro hcomp
      rw [hmain0]
      simp [joinRoomTail, hcomp]
    · intro hcomp
      have hmain : handleJoinRoom dec sha now socketId ip (.strVal f) password st =
          (.joined (fileMetaOf dec row) socketId
            ((roomMembers (joinRoom (joinSt1 now socketId st).rooms socketId f)
               f).filter (fun m => m ≠ socketId)),
            { joinSt1 now socketId st with
                db := setKey (joinSt1 now socketId st).db f
                  ⟨row.fileName, row.fileSize, row.fileType, row.passwordHash,
                    "active", row.createdAt⟩,
                rooms := joinRoom (joinSt1 now socketId st).rooms socketId f }) := by
        rw [hmain0]
        simp [joinRoomTail, hcomp]
      refine ⟨hmain, ?_, ?_⟩
      · rw [hmain]
        exact lookupKey_setKey_self _ _ _
      · rw [hmain]
        exact joinRoom_mem _ _ _

/-- A password-free WAITING session row used by the join-room scenarios. -/
def docRow : FileSession := ⟨"doc.txt", 5, "text/plain", none, "waiting", 0⟩

/-- A state holding only `docRow`, with an *empty* session registry. -/
def joinState : SrvState :=
  ⟨[("aaaaaaaa-bbbb-cccc-dddd-eeeeeeeeeeee", docRow)], [], [], [], [], [], []⟩

/-- **C3 witness.** Joining the concrete session flips its status to
`active` and puts the joiner in the room. -/
theorem claim_C3_join_room_witness :
    lookupKey (handleJoinRoom (fun s => s) (fun s => s) 0 "E2" "2.2.2.2"
        (.strVal "aaaaaaaa-bbbb-cccc-dddd-eeeeeeeeeeee") .missing
        joinState).2.db "aaaaaaaa-bbbb-cccc-dddd-eeeeeeeeeeee" =
      some ⟨"doc.txt", 5, "text/plain", none, "active", 0⟩ ∧
    "aaaaaaaa-bbbb-cccc-dddd-eeeeeeeeeeee" ∈
      (lookupKey (handleJoinRoom (fun s => s) (fun s => s) 0 "E2" "2.2.2.2"
        (.strVal "aaaaaaaa-bbbb-cccc-dddd-eeeeeeeeeeee") .missing
        joinState).2.rooms "E2").getD [] :=
  ⟨(((claim_C3_join_room (fun s => s) (fun s => s) 0 "E2" "2.2.2.2"
        "aaaaaaaa-bbbb-cccc-dddd-eeeeeeeeeeee" .missing joinState
        (by decide)).2.2.2.2 docRow (by decide) (by decide) (by decide)
        (by decide)).2 (by decide)).2.1,
    (((claim_C3_join_room (fun s => s) (fun s => s) 0 "E2" "2.2.2.2"
        "aaaaaaaa-bbbb-cccc-dddd-eeeeeeeeeeee" .missing joinState
        (by decide)).2.2.2.2 docRow (by decide) (by decide) (by decide)
        (by decide)).2 (by decide)).2.2⟩

/-- **C3 counterexample.** The claim requires that a join succeed *only
when* "the sender is still registered for the session and the presented
one-time code verifies", and that a bad code yield `invalidCode=true`.
Here the registry is empty (no sender registered), no code exists or is
presented, and the join nevertheless succeeds outright. -/
theorem claim_C3_join_room_counterexample :
    (handleJoinRoom (fun s => s) (fun s => s) 0 "E2" "2.2.2.2"
        (.strVal "aaaaaaaa-bbbb-cccc-dddd-eeeeeeeeeeee") .missing
        joinState).1 =
      JoinEmit.joined ⟨"doc.txt", "5", "text/plain", false, none⟩ "E2" [] ∧
    joinState.registry = [] := by
  decide

/-- **C10.** Upload-init accepts a supplied password only if it is a string
of 4 to 128 characters, storing its unsalted SHA-256 digest with the
session; and for every session holding a (non-empty) password hash,
join-room fails with `passwordRequired: true` — leaving the repository and
the rooms untouched apart from the join-limiter bookkeeping — whenever no
string password is supplied or the digest of the supplied password differs
from the stored hash. -/
theorem claim_C10_password_flow (enc sha : String → String) (now : Nat)
    (newId : String) (rand : Fin 6 → Fin 32) (socketId ip : String)
    (p : Option UploadPayload) (st : SrvState) :
    (∀ fid w, (handleUploadInit enc sha now newId rand socketId ip p st).1 =
        UploadEmit.created fid w →
      ∃ pl, p = some pl ∧
        ∃ row, lookupKey
            (handleUploadInit enc sha now newId rand socketId ip p st).2.db
            newId = some row ∧
          ((pl.password.truthy = false ∧ row.passwordHash = none) ∨
           (∃ pw, pl.password = JSField.strVal pw ∧ pw ≠ "" ∧
              4 ≤ pw.length ∧ pw.length ≤ 128 ∧
              row.passwordHash = some (sha pw)))) ∧
    (∀ pl pw, p = some pl → pl.password = JSField.strVal pw → pw ≠ "" →
      ¬ (4 ≤ pw.length ∧ pw.length ≤ 128) →
      ∀ fid w, (handleUploadInit enc sha now newId rand socketId ip p st).1 ≠
        UploadEmit.created fid w) ∧
    (∀ (dec : String → String) (password : JSField) (f : String)
        (row : FileSession) (h : String),
      f ≠ "" →
      (rateLimiterCheck 60000 20 now (lookupKey st.joinLimiter socketId)).1 =
        true →
      uuidFormatOk f = true →
      lookupKey st.db f = some row →
      row.passwordHash = some h → h ≠ "" →
      (password.isTruthyString = false →
        handleJoinRoom dec sha now socketId ip (.strVal f) password st =
          (.err "Password required" true, joinSt1 now socketId st)) ∧
      (∀ pw, password = JSField.strVal pw → pw ≠ "" → sha pw ≠ h →
        handleJoinRoom dec sha now socketId ip (.strVal f) password st =
          (.err "Incorrect password" true, joinSt1 now socketId st))) ∧
    (joinSt1 now socketId st).db = st.db ∧
    (joinSt1 now socketId st).rooms = st.rooms := by
  refine ⟨?_, ?_, ?_, rfl, rfl⟩
  · intro fid w h
    obtain ⟨hfid, pl, st', hpl, hEq, ⟨row, hrow, hwait, hdisj⟩, _⟩ :=
      handleUploadInit_created_inv enc sha now newId rand socketId ip p st
        fid w h
    refine ⟨pl, hpl, row, ?_, hdisj⟩
    rw [hEq]
    exact hrow
  · intro pl pw hpl hpw hpwne hbad fid w h
    obtain ⟨hfid, pl', st', hpl', hEq, ⟨row, hrow, hwait, hdisj⟩, _⟩ :=
      handleUploadInit_created_inv enc sha now newId rand socketId ip p st
        fid w h
    rw [hpl] at hpl'
    injection hpl' with hpl'
    subst hpl'
    rcases hdisj with ⟨htr, -⟩ | ⟨pw', hpw', hne', h4, h128, -⟩
    · rw [hpw] at htr
      simp [JSField.truthy, hpwne] at htr
    · rw [hpw] at hpw'
      injection hpw' with hpw'
      subst hpw'
      exact hbad ⟨h4, h128⟩
  · intro dec password f row h hf hrl huuid hrow hph hh
    have hft : (JSField.strVal f).isTruthyString = true := by
      simp [JSField.isTruthyString, hf]
    have hfs : (JSField.strVal f).str = f := rfl
    have hpwt : strOptTruthy (some h) = true := by
      simpa [strOptTruthy] using hh
    constructor
    · intro hnostr
      simp [handleJoinRoom, joinSt1, hft, hfs, hrl, validateUUID, hf, huuid,
        hrow, hph, hpwt, hnostr]
    · intro pw hpw hpwne hwrong
      subst hpw
      have hpt : (JSField.strVal pw).isTruthyString = true := by
        simp [JSField.isTruthyString, hpwne]
      simp [handleJoinRoom, joinSt1, hft, hfs, hrl, validateUUID, hf, huuid,
        hrow, hph, hpwt, hpt, verifyPassword, hashPassword, hwrong,
        JSField.str]

/-- An `upload-init` payload carrying the password `secret1`. -/
def pwPayload : UploadPayload :=
  ⟨.strVal "doc.pdf", .numVal 100, .strVal "application/pdf",
    .strVal "secret1"⟩

/-- A session row protected by the digest of `secret1` (digest function
`fun s => s ++ "#h"` in the witness). -/
def pwRow : FileSession :=
  ⟨"doc.pdf", 100, "application/pdf", some "secret1#h", "waiting", 0⟩

/-- A state holding only the password-protected session `pwRow`. -/
def pwState : SrvState :=
  ⟨[("bbbbbbbb-bbbb-cccc-dddd-eeeeeeeeeeee", pwRow)], [], [], [], [], [], []⟩

/-- **C10 witness.** Uploading with password `secret1` stores its digest;
joining without a password, or with the wrong password `wrong`, yields the
two `passwordRequired: true` errors with the repository untouched. -/
theorem claim_C10_password_flow_witness :
    (∃ pl, some pwPayload = some pl ∧
      ∃ row, lookupKey (handleUploadInit (fun s => s) (fun s => s ++ "#h") 0
          "bbbbbbbb-bbbb-cccc-dddd-eeeeeeeeeeee" (fun _ => 0) "S" "1.2.3.4"
          (some pwPayload) initialState).2.db
          "bbbbbbbb-bbbb-cccc-dddd-eeeeeeeeeeee" = some row ∧
        ((pl.password.truthy = false ∧ row.passwordHash = none) ∨
         (∃ pw, pl.password = JSField.strVal pw ∧ pw ≠ "" ∧
            4 ≤ pw.length ∧ pw.length ≤ 128 ∧
            row.passwordHash = some (pw ++ "#h")))) ∧
    handleJoinRoom (fun s => s) (fun s => s ++ "#h") 0 "E2" "2.2.2.2"
        (.strVal "bbbbbbbb-bbbb-cccc-dddd-eeeeeeeeeeee") .missing pwState =
      (.err "Password required" true, joinSt1 0 "E2" pwState) ∧
    handleJoinRoom (fun s => s) (fun s => s ++ "#h") 0 "E2" "2.2.2.2"
        (.strVal "bbbbbbbb-bbbb-cccc-dddd-eeeeeeeeeeee") (.strVal "wrong")
        pwState =
      (.err "Incorrect password" true, joinSt1 0 "E2" pwState) :=
  ⟨(claim_C10_password_flow (fun s => s) (fun s => s ++ "#h") 0
      "bbbbbbbb-bbbb-cccc-dddd-eeeeeeeeeeee" (fun _ => 0) "S" "1.2.3.4"
      (some pwPayload) initialState).1
      "bbbbbbbb-bbbb-cccc-dddd-eeeeeeeeeeee" none (by decide),
    ((claim_C10_password_flow (fun s => s) (fun s => s ++ "#h") 0
      "bbbbbbbb-bbbb-cccc-dddd-eeeeeeeeeeee" (fun _ => 0) "E2" "2.2.2.2"
      none pwState).2.2.1 (fun s => s) .missing
      "bbbbbbbb-bbbb-cccc-dddd-eeeeeeeeeeee" pwRow "secret1#h" (by decide)
      (by decide) (by decide) (by decide) (by decide) (by decide)).1
      (by decide),
    ((claim_C10_password_flow (fun s => s) (fun s => s ++ "#h") 0
      "bbbbbbbb-bbbb-cccc-dddd-eeeeeeeeeeee" (fun _ => 0) "E2" "2.2.2.2"
      none pwState).2.2.1 (fun s => s) (.strVal "wrong")
      "bbbbbbbb-bbbb-cccc-dddd-eeeeeeeeeeee" pwRow "secret1#h" (by decide)
      (by decide) (by decide) (by decide) (by decide) (by decide)).2
      "wrong" rfl (by decide) (by decide)⟩

end Transferlvania
